import Mathlib

/-!
Verification development for the natural-grid engine: a shallow embedding of
the configuration resolver, the SSE/fetch data providers, the GridModel
mutations exposed through the plugin capability API, the style pipeline, and
the virtualized renderer parameters, together with theorems settling the
frozen claims about this code.
-/

namespace NG

/-- Column declaration of a grid spec: key, title, optional width and alignment. -/
structure Column where
  key : String
  title : String
  widthPx : Option Int := none
  align : Option String := none
deriving DecidableEq, Repr

/-- Row of the grid model: id and a cell map (association list keyed by column key). -/
structure Row where
  id : String
  cells : List (String × String) := []
deriving DecidableEq, Repr

/-- Grid status values: init, loading, ready, error. -/
inductive Status where
  | init
  | loading
  | ready
  | error
deriving DecidableEq, Repr

/-- The single mutable grid model: columns, rows, sort list, filter list, status,
error message.  Sort and filter entries are uninterpreted payloads, modelled as strings. -/
structure GridModel where
  columns : List Column := []
  rows : List Row := []
  sort : List String := []
  filters : List String := []
  status : Status := Status.init
  error : String := ""
deriving DecidableEq, Repr

/-- Snapshot shape carried by data payloads; every field is optional, mirroring
absent object fields in the JSON payloads. -/
structure Snapshot where
  columns : Option (List Column) := none
  rows : Option (List Row) := none
  sort : Option (List String) := none
  filters : Option (List String) := none
deriving DecidableEq, Repr

/-- Virtualization block of the ui options; absent fields are none. -/
structure VirtualizationUi where
  enabled : Option Bool := none
  rowThreshold : Option Int := none
  columnThreshold : Option Int := none
  rowHeightPx : Option Int := none
  viewportHeightPx : Option Int := none
  viewportWidthPx : Option Int := none
deriving DecidableEq, Repr

/-- JS falsy-string fallback: the operator (s or d) used on strings picks d
exactly when s is the empty string. -/
def jsOrString (s d : String) : String :=
  if s = "" then d else s

/-!
Renderer parameter clamping, from NaturalGrid.render:
rowHeight is Math.max(1, Number(virtualizationUi.rowHeightPx ?? 34)),
viewportHeightPx is Math.max(160, Number(virtualizationUi.viewportHeightPx ?? 360)),
viewportWidthPx is Math.max(200, Number(virtualizationUi.viewportWidthPx ?? 760)).
-/

/-- Effective row height used by the renderer. -/
def effRowHeight (cfg : Option Int) : Int :=
  max 1 (cfg.getD 34)

/-- Effective viewport height used by the renderer. -/
def effViewportHeight (cfg : Option Int) : Int :=
  max 160 (cfg.getD 360)

/-- Effective viewport width used by the renderer. -/
def effViewportWidth (cfg : Option Int) : Int :=
  max 200 (cfg.getD 760)

/-- Virtualization activation decision, from NaturalGrid.render:
Boolean(virtualizationUi.enabled ?? (flatEntries.length > (rowThreshold ?? 200)
or cols.length > (columnThreshold ?? 16))). -/
def virtualizationEnabled (ui : VirtualizationUi) (flatRowCount colCount : Nat) : Bool :=
  match ui.enabled with
  | some b => b
  | none =>
      decide ((flatRowCount : Int) > ui.rowThreshold.getD 200) ||
        decide ((colCount : Int) > ui.columnThreshold.getD 16)

/-- Data source descriptor of a grid spec. -/
structure DataSource where
  kind : String
  snapshot : Option Snapshot := none
deriving DecidableEq, Repr

/-- Toolbar ui options. -/
structure ToolbarUi where
  enabled : Bool := true
deriving DecidableEq, Repr

/-- Tree ui options. -/
structure TreeUi where
  enabled : Bool := false
deriving DecidableEq, Repr

/-- Ui options of a grid spec. -/
structure UiOptions where
  zebra : Bool := false
  toolbar : ToolbarUi := {}
  tree : TreeUi := {}
deriving DecidableEq, Repr

/-- Declarative grid spec: id, title, ui, columns, data source, plugin refs
(plugin refs are uninterpreted here, modelled as strings). -/
structure GridSpec where
  id : String
  title : String := ""
  ui : UiOptions := {}
  columns : List Column := []
  data : DataSource
  plugins : List String := []
deriving DecidableEq, Repr

/-- Config resolution, from NaturalGrid.resolveConfig.  Each strategy result is
passed in as the Option it would produce; the body mirrors the dispatch on the
explicit data-init mode and the fallback chain. -/
def resolveConfig (explicitMode : String)
    (internalJson externalJson tableSpec factorySpec : Option GridSpec) :
    Option GridSpec :=
  if explicitMode = "json" then internalJson <|> externalJson
  else if explicitMode = "table" then tableSpec
  else if explicitMode = "factory" then factorySpec
  else internalJson <|> externalJson <|> tableSpec <|> factorySpec

/-- One body row of a legacy table: the optional data-row-id attribute and the
text content of its cells. -/
structure TableRowHtml where
  dataRowId : Option String := none
  cellTexts : List String := []
deriving DecidableEq, Repr

/-- A legacy HTML table as the upgrade path sees it: the text of the header
cells of the first tHead row (none when no such row exists) and the rows of the
first tBody (empty when absent). -/
structure LegacyTable where
  headerTexts : Option (List String) := none
  bodyCellRows : List TableRowHtml := []
deriving DecidableEq, Repr

/-- Default column used only to totalize list indexing. -/
def colDefault : Column := { key := "", title := "" }

/-- Default table row used only to totalize list indexing. -/
def trDefault : TableRowHtml := {}

/-- Default row used only to totalize list indexing. -/
def rowDefault : Row := { id := "" }

/-- Columns produced by the table upgrade: one per header cell, with key cN
and title the trimmed header text, falling back to Col N for empty text. -/
def tableColumns (table : LegacyTable) : List Column :=
  (List.range (table.headerTexts.getD []).length).map (fun i =>
    { key := "c" ++ toString (i + 1),
      title := (jsOrString ((table.headerTexts.getD []).getD i "")
        ("Col " ++ toString (i + 1))).trim,
      widthPx := none, align := none : Column })

/-- Rows produced by the table upgrade: one per body row, id from the
data-row-id attribute or synthesized as id__rN, and its cell map pairs each
column key with the trimmed text of the corresponding cell. -/
def tableRows (table : LegacyTable) (hintsId : String) : List Row :=
  (List.range table.bodyCellRows.length).map (fun idx =>
    let tr := table.bodyCellRows.getD idx trDefault
    { id := jsOrString (tr.dataRowId.getD "")
        (hintsId ++ "__r" ++ toString (idx + 1)),
      cells := (List.range (tableColumns table).length).map (fun i =>
        (((tableColumns table).getD i colDefault).key,
          (tr.cellTexts.getD i "").trim)) : Row })

/-- Table upgrade, from gridSpecFromTable: columns from the header cells, rows
from the body rows, all wrapped in a static data source. -/
def gridSpecFromTable (table : LegacyTable) (hintsId : String)
    (hintsTitle : Option String) : GridSpec :=
  { id := hintsId,
    title := hintsTitle.getD "",
    ui := { zebra := false, toolbar := { enabled := false },
            tree := { enabled := false } },
    columns := tableColumns table,
    data := { kind := "static",
              snapshot := some { columns := some (tableColumns table),
                                 rows := some (tableRows table hintsId) } },
    plugins := [] }

/-- Plugin style fragment as stored by addStyles: id, priority, css text. -/
structure StyleEntry where
  id : String
  priority : Int
  cssText : String
deriving DecidableEq, Repr

/-- Style pipeline composition, from NaturalGrid.applyStylePipeline: when the
host opts out of styling the adopted sheet list is empty; otherwise base,
then the internal theme slot, then plugin fragments sorted by (priority
ascending, id lexicographic), then the caller-supplied user css last, with
empty fragments holding no sheet. -/
def applyStylePipeline (unstyled : Bool) (baseCss themeCss userCss : String)
    (plugins : List StyleEntry) : List String :=
  if unstyled then []
  else
    let ordered := plugins.mergeSort (fun a b =>
      a.priority < b.priority || (a.priority = b.priority && a.id ≤ b.id))
    ([baseCss, themeCss] ++ ordered.map (fun p => p.cssText) ++ [userCss]).filter
      (fun s => s ≠ "")

/-- State touched by addStyles and its disposer: the registered fragments and a
count of render requests, so render-triggering is observable. -/
structure StyleState where
  fragments : List StyleEntry := []
  renders : Nat := 0
deriving DecidableEq, Repr

/-- Fragment registration, from createPluginApi.addStyles: push the entry and
render. The id is the resolved id (the caller-supplied options id, or the
generated fresh id when omitted). -/
def addStyles (st : StyleState) (id : String) (priority : Int) (css : String) :
    StyleState :=
  { st with fragments := st.fragments ++ [{ id := id, priority := priority, cssText := css }],
            renders := st.renders + 1 }

/-- The disposer returned by addStyles: drop every fragment whose id matches
and render. -/
def disposeStyles (st : StyleState) (id : String) : StyleState :=
  { st with fragments := st.fragments.filter (fun e => e.id ≠ id),
            renders := st.renders + 1 }

/-- JS Map.set on an insertion-ordered association list: when the key is
already present, the entry is updated in place; otherwise the pair is appended. -/
def mapSet (m : List (String × Row)) (k : String) (v : Row) :
    List (String × Row) :=
  if m.any (fun p => p.1 = k) then
    m.map (fun p => if p.1 = k then (k, v) else p)
  else m ++ [(k, v)]

/-- Merge rows keyed by id with last write winning, from the upsertRows branch
of applySseMessage and from createPluginApi.upsertRows: build a Map from the
existing rows, set every incoming row under its id, take the values. -/
def upsertRows (existing incoming : List Row) : List Row :=
  let m := existing.foldl (fun m r => mapSet m r.id r) []
  (incoming.foldl (fun m r => mapSet m r.id r) m).map Prod.snd

/-- Incoming stream payload after JSON parsing: the relevant fields of the
parsed object, each absent when missing from the payload. -/
structure SsePayload where
  ptype : Option String := none
  snapshot : Option Snapshot := none
  rows : Option (List Row) := none
deriving DecidableEq, Repr

/-- Stream message dispatch, from applySseMessage: setSnapshot replaces the
model from the snapshot (keeping model columns when the snapshot has none,
defaulting rows, sort and filters), setRows replaces rows wholesale,
upsertRows merges by id, and every other shape leaves the model unchanged. -/
def applySseMessage (model : GridModel) (p : SsePayload) : GridModel :=
  if p.ptype = some "setSnapshot" then
    match p.snapshot with
    | some s =>
        { model with
          columns := s.columns.getD model.columns,
          rows := s.rows.getD [],
          sort := s.sort.getD [],
          filters := s.filters.getD [] }
    | none => model
  else if p.ptype = some "setRows" then
    match p.rows with
    | some rs => { model with rows := rs }
    | none => model
  else if p.ptype = some "upsertRows" then
    match p.rows with
    | some rs => { model with rows := upsertRows model.rows rs }
    | none => model
  else model

/-- Plugin capability setStatus, from createPluginApi.setStatus: write the
status field directly, with no transition validation. -/
def setStatus (model : GridModel) (s : Status) : GridModel :=
  { model with status := s }

/-- Plugin capability setSnapshot, from createPluginApi.setSnapshot: falls back
to the existing model columns when the snapshot supplies none (and to the
config columns when the model has none), defaults rows, sort and filters. -/
def setSnapshot (model : GridModel) (cfgColumns : List Column) (s : Snapshot) :
    GridModel :=
  { model with
    columns := s.columns.getD
      (if model.columns.length ≠ 0 then model.columns else cfgColumns),
    rows := s.rows.getD [],
    sort := s.sort.getD [],
    filters := s.filters.getD [] }

/-- SSE message handler, from the onMsg closure of sseDataProvider: apply the
parsed payload to the model, fill columns from the config when the model has
none, then set status ready. -/
def sseOnMessage (cfgColumns : List Column) (model : GridModel)
    (p : SsePayload) : GridModel :=
  let m1 := applySseMessage model p
  let m2 := if m1.columns.length = 0 then { m1 with columns := cfgColumns } else m1
  setStatus m2 Status.ready

/-- Observable events of the SSE provider lifecycle. -/
inductive SseEvent where
  | start
  | message (p : SsePayload)
  | connError
deriving DecidableEq, Repr

/-- SSE provider step, from sseDataProvider: start flags a missing url as an
error and otherwise moves to loading; an arriving message runs the onMsg
handler; a connection error sets status error with its message. -/
def sseStep (cfgColumns : List Column) (hasUrl : Bool) (model : GridModel)
    (e : SseEvent) : GridModel :=
  match e with
  | SseEvent.start =>
      if !hasUrl then
        { model with status := Status.error,
                     error := "SSE data provider missing url." }
      else setStatus model Status.loading
  | SseEvent.message p => sseOnMessage cfgColumns model p
  | SseEvent.connError =>
      { model with status := Status.error, error := "SSE connection error." }

/-- Modelled from the spec: the allowed status transitions, namely
init to loading, loading to ready, loading to error, and ready or error back
to loading on reinitialization; no transition skips loading. -/
def specAllowedTransition : Status → Status → Bool
  | Status.init, Status.loading => true
  | Status.loading, Status.ready => true
  | Status.loading, Status.error => true
  | Status.ready, Status.loading => true
  | Status.error, Status.loading => true
  | _, _ => false

/-- Resume data of an in-flight fetch, from fetchOnce of fetchDataProvider:
the success path carries the decoded snapshot, the catch path carries the
failure message (including the rejection produced when stop aborts the
request). -/
inductive FetchResume where
  | success (snap : Snapshot)
  | failure (msg : String)
deriving DecidableEq, Repr

/-- A pending asynchronous continuation, tagged by the embedding with the
initialization cycle that spawned it so staleness is expressible. -/
structure PendingFetch where
  cycle : Nat
  resume : FetchResume
deriving DecidableEq, Repr

/-- Grid state across initialization cycles: the current cycle counter (an
embedding tag counting calls to reinitialize), the current model, and the
pending fetch continuations. -/
structure GridAsyncState where
  cycle : Nat := 0
  model : GridModel := {}
  pending : List PendingFetch := []
deriving DecidableEq, Repr

/-- Continuation body resumed after the fetch await point, from fetchOnce: the
success path pushes the snapshot and sets status ready, the catch path sets
status error with a Fetch failed message.  The code applies it to whatever
model the api closure currently sees. -/
def applyFetchResume (model : GridModel) (cfgColumns : List Column)
    (r : FetchResume) : GridModel :=
  match r with
  | FetchResume.success snap =>
      let m := setSnapshot model cfgColumns
        { columns := snap.columns,
          rows := some (snap.rows.getD []),
          sort := some (snap.sort.getD []),
          filters := some (snap.filters.getD []) }
      setStatus m Status.ready
  | FetchResume.failure msg =>
      setStatus { model with error := "Fetch failed: " ++ msg } Status.error

/-- Resumption of a pending continuation: the code performs no generation
check, so the continuation mutates the current model regardless of the cycle
it was spawned in. -/
def resumePending (st : GridAsyncState) (cfgColumns : List Column)
    (p : PendingFetch) : GridAsyncState :=
  { st with model := applyFetchResume st.model cfgColumns p.resume }

/-- Reinitialization, from NaturalGrid.reinitialize followed by the head of
initializeIfNeeded: the active provider is stopped (aborting the in-flight
request, whose catch continuation stays pending), all registries are cleared,
the model is reset and moved to loading, and the cycle advances. -/
def reinitStep (st : GridAsyncState) : GridAsyncState :=
  { cycle := st.cycle + 1,
    model := { columns := [], rows := [], sort := [], filters := [],
               status := Status.loading, error := "" },
    pending := st.pending }

/-- Boolean test for the recognized stream message types. -/
def recognizedType (t : Option String) : Bool :=
  t == some "setSnapshot" || t == some "setRows" || t == some "upsertRows"

/-- C7: virtualization is active iff the flattened row count strictly exceeds
the row threshold (default 200) or the column count strictly exceeds the
column threshold (default 16), except that an explicit enabled configuration
wins regardless of the counts. -/
theorem virtualization_activation_iff (ui : VirtualizationUi) (r c : Nat) :
    (ui.enabled = none →
      (virtualizationEnabled ui r c = true ↔
        ((r : Int) > ui.rowThreshold.getD 200 ∨
          (c : Int) > ui.columnThreshold.getD 16))) ∧
    (∀ b, ui.enabled = some b → virtualizationEnabled ui r c = b) := by
  constructor
  · intro h
    simp [virtualizationEnabled, h]
  · intro b h
    simp [virtualizationEnabled, h]

/-- Closed witness for the virtualization activation theorem: 201 rows with no
explicit setting activate, an explicit false wins over huge counts. -/
theorem virtualization_activation_iff_witness :
    virtualizationEnabled { enabled := none } 201 0 = true ∧
    virtualizationEnabled { enabled := some false } 1000 1000 = false := by
  constructor
  · exact ((virtualization_activation_iff { enabled := none } 201 0).1 rfl).2
      (Or.inl (by norm_num))
  · exact (virtualization_activation_iff { enabled := some false } 1000 1000).2
      false rfl

/-- C4 counterexample: a configured viewport height of 0 becomes 160 and a
configured viewport width of 0 becomes 200, so neither is clamped to a minimum
of 1 as the claim states. -/
theorem viewport_clamp_not_one :
    effViewportHeight (some 0) = 160 ∧ effViewportWidth (some 0) = 200 ∧
    ¬ effViewportHeight (some 0) = 1 ∧ ¬ effViewportWidth (some 0) = 1 := by
  decide

/-- C4 amended: a non-positive configured row height is clamped to a minimum
of 1, while a non-positive configured viewport height is clamped to a minimum
of 160 and a non-positive configured viewport width to a minimum of 200. -/
theorem render_dimension_clamps (c : Int) (h : c ≤ 0) :
    effRowHeight (some c) = 1 ∧ effViewportHeight (some c) = 160 ∧
    effViewportWidth (some c) = 200 := by
  refine ⟨?_, ?_, ?_⟩ <;>
    simp [effRowHeight, effViewportHeight, effViewportWidth, Int.max_def] <;>
    omega

/-- Closed witness for the dimension clamp theorem at configured value -3. -/
theorem render_dimension_clamps_witness :
    effRowHeight (some (-3)) = 1 ∧ effViewportHeight (some (-3)) = 160 ∧
    effViewportWidth (some (-3)) = 200 :=
  render_dimension_clamps (-3) (by decide)

/-- C2 counterexample: with data-init json forced and no embedded declarative
block, resolution falls back to the externally referenced block and succeeds
instead of failing. -/
theorem resolveConfig_json_mode_falls_back :
    resolveConfig "json" none (some { id := "g1", data := { kind := "static" } })
        none none = some { id := "g1", data := { kind := "static" } } ∧
    ¬ resolveConfig "json" none (some { id := "g1", data := { kind := "static" } })
        none none = none := by
  decide

/-- C2 amended: the forced table and factory modes each run exactly one
strategy with no fallback, while the forced json mode consults the embedded
block and then the externally referenced block, never the table or factory
strategies. -/
theorem resolveConfig_explicit_mode_strategies (i e t f : Option GridSpec) :
    resolveConfig "table" i e t f = t ∧
    resolveConfig "factory" i e t f = f ∧
    resolveConfig "json" i e t f = (i <|> e) := by
  refine ⟨rfl, rfl, rfl⟩

/-- C5 counterexample: with default styling disabled, the caller-supplied css
is dropped along with everything else, so the pipeline applies no rule at all. -/
theorem unstyled_drops_user_css :
    applyStylePipeline true "basecss" "" "usercss" [] = [] ∧
    ¬ "usercss" ∈ applyStylePipeline true "basecss" "" "usercss" [] := by
  decide

/-- C5 amended: disabling default styling skips every style source - the
structural base rules, the internal theme slot, the plugin fragments and also
the caller-supplied override rules. -/
theorem unstyled_skips_all_styles (baseCss themeCss userCss : String)
    (plugins : List StyleEntry) :
    applyStylePipeline true baseCss themeCss userCss plugins = [] := rfl

/-- C10: registering two style fragments under the same id and then invoking
the disposer returned by either registration removes every fragment bearing
that id, and each registration and the disposal trigger a render. -/
theorem addStyles_duplicate_id_dispose (st : StyleState) (id : String)
    (p1 p2 : Int) (c1 c2 : String) :
    (addStyles st id p1 c1).renders = st.renders + 1 ∧
    (addStyles (addStyles st id p1 c1) id p2 c2).renders = st.renders + 2 ∧
    (disposeStyles (addStyles (addStyles st id p1 c1) id p2 c2) id).renders
      = st.renders + 3 ∧
    (disposeStyles (addStyles (addStyles st id p1 c1) id p2 c2) id).fragments
      = st.fragments.filter (fun e => e.id ≠ id) := by
  refine ⟨rfl, rfl, rfl, ?_⟩
  simp [disposeStyles, addStyles, List.filter_append]

/-- C1 counterexample: along the reachable SSE trace start, connection error,
message, the status moves from error straight to ready, a transition the
claimed state machine forbids. -/
theorem sse_error_to_ready_trace :
    let m0 : GridModel := { status := Status.loading }
    let m1 := sseStep [] true m0 SseEvent.start
    let m2 := sseStep [] true m1 SseEvent.connError
    let m3 := sseStep [] true m2 (SseEvent.message { ptype := some "bogus" })
    m2.status = Status.error ∧ m3.status = Status.ready ∧
    specAllowedTransition Status.error Status.ready = false := by
  decide

/-- C1 amended: setStatus performs no transition validation, so a stream
message processed while status is error sets status directly to ready,
skipping loading; only the happy paths follow init to loading to ready or
error. -/
theorem sse_message_forces_ready_from_error (cfgColumns : List Column)
    (m : GridModel) (p : SsePayload) (h : m.status = Status.error) :
    (sseOnMessage cfgColumns m p).status = Status.ready ∧
    specAllowedTransition m.status (sseOnMessage cfgColumns m p).status
      = false := by
  have h1 : (sseOnMessage cfgColumns m p).status = Status.ready := by
    unfold sseOnMessage
    by_cases hc : (applySseMessage m p).columns.length = 0 <;>
      simp [hc, setStatus]
  refine ⟨h1, ?_⟩
  rw [h, h1]
  rfl

/-- Closed witness for the forced error-to-ready theorem at a concrete model
in error status. -/
theorem sse_message_forces_ready_from_error_witness :
    (sseOnMessage [] { status := Status.error } { ptype := some "x" }).status
      = Status.ready ∧
    specAllowedTransition ({ status := Status.error } : GridModel).status
      (sseOnMessage [] { status := Status.error } { ptype := some "x" }).status
      = false :=
  sse_message_forces_ready_from_error [] { status := Status.error }
    { ptype := some "x" } rfl

/-- C3 counterexample: an unrecognized stream message leaves the model data
untouched at the dispatch level, yet processing it through the stream handler
changes the status. -/
theorem unrecognized_message_changes_status :
    let m : GridModel := { rows := [{ id := "1" }], status := Status.loading }
    let p : SsePayload := { ptype := some "bogus" }
    applySseMessage m p = m ∧ ¬ (sseOnMessage [] m p).status = m.status := by
  decide

/-- C3 amended: a stream message of unrecognized shape leaves rows, columns,
sort and filters unchanged by the dispatch, but the stream handler still sets
status to ready after processing it (and fills columns from the config only
when the model has none). -/
theorem unrecognized_message_ignored_but_ready (cfgColumns : List Column)
    (m : GridModel) (p : SsePayload) (h : recognizedType p.ptype = false) :
    applySseMessage m p = m ∧
    (sseOnMessage cfgColumns m p).rows = m.rows ∧
    (sseOnMessage cfgColumns m p).sort = m.sort ∧
    (sseOnMessage cfgColumns m p).filters = m.filters ∧
    (sseOnMessage cfgColumns m p).status = Status.ready := by
  simp only [recognizedType, Bool.or_eq_false_iff, beq_eq_false_iff_ne] at h
  obtain ⟨⟨h1, h2⟩, h3⟩ := h
  have happ : applySseMessage m p = m := by
    simp [applySseMessage, h1, h2, h3]
  refine ⟨happ, ?_, ?_, ?_, ?_⟩ <;>
    · unfold sseOnMessage
      rw [happ]
      by_cases hc : m.columns.length = 0 <;> simp [hc, setStatus]

/-- Closed witness for the unrecognized-message theorem at a concrete model
and payload. -/
theorem unrecognized_message_ignored_but_ready_witness :
    applySseMessage { rows := [{ id := "1" }], status := Status.loading }
        { ptype := some "bogus" }
      = { rows := [{ id := "1" }], status := Status.loading } ∧
    (sseOnMessage [] { rows := [{ id := "1" }], status := Status.loading }
        { ptype := some "bogus" }).rows
      = ({ rows := [{ id := "1" }], status := Status.loading } : GridModel).rows ∧
    (sseOnMessage [] { rows := [{ id := "1" }], status := Status.loading }
        { ptype := some "bogus" }).sort
      = ({ rows := [{ id := "1" }], status := Status.loading } : GridModel).sort ∧
    (sseOnMessage [] { rows := [{ id := "1" }], status := Status.loading }
        { ptype := some "bogus" }).filters
      = ({ rows := [{ id := "1" }], status := Status.loading } : GridModel).filters ∧
    (sseOnMessage [] { rows := [{ id := "1" }], status := Status.loading }
        { ptype := some "bogus" }).status = Status.ready :=
  unrecognized_message_ignored_but_ready []
    { rows := [{ id := "1" }], status := Status.loading }
    { ptype := some "bogus" } (by decide)

/-- C6 counterexample: a fetch continuation spawned in cycle 0 and resumed
after reinitialization advanced the cycle still mutates the current model
instead of being discarded. -/
theorem stale_fetch_resume_mutates_current_model :
    let p : PendingFetch := { cycle := 0, resume := FetchResume.failure "aborted" }
    let st0 : GridAsyncState :=
      { cycle := 0, model := { status := Status.loading }, pending := [p] }
    let st1 := reinitStep st0
    p.cycle ≠ st1.cycle ∧
    ¬ (resumePending st1 [] p).model = st1.model ∧
    (resumePending st1 [] p).model.status = Status.error := by
  decide

/-- C6 amended: the code carries no generation token; a resumed continuation
applies its result to the current model unconditionally even when its cycle
differs from the current one - in particular the abort-triggered failure path
of a stale fetch sets status error and a Fetch failed message on the model of
the newer cycle. -/
theorem resume_ignores_cycle (st : GridAsyncState) (cfgColumns : List Column)
    (c : Nat) (msg : String) (h : c ≠ st.cycle) :
    (resumePending st cfgColumns
        { cycle := c, resume := FetchResume.failure msg }).model.status
      = Status.error ∧
    (resumePending st cfgColumns
        { cycle := c, resume := FetchResume.failure msg }).model.error
      = "Fetch failed: " ++ msg :=
  ⟨rfl, rfl⟩

/-- mapSet leaves an entry whose key differs from the inserted key unchanged
at its position. -/
theorem mapSet_getElem_ne (m : List (String × Row)) (k : String) (v : Row)
    (i : Nat) (a : String) (b : Row) (hm : m[i]? = some (a, b)) (hne : a ≠ k) :
    (mapSet m k v)[i]? = some (a, b) := by
  unfold mapSet
  split
  · rw [List.getElem?_map, hm]
    simp [hne]
  · have hi : i < m.length := (List.getElem?_eq_some.mp hm).1
    rw [List.getElem?_append_left hi, hm]

/-- Folding mapSet over a row list leaves an entry untouched at its position
when no folded row carries its key. -/
theorem foldl_mapSet_getElem_ne (rs : List Row) :
    ∀ (m : List (String × Row)) (i : Nat) (a : String) (b : Row),
      m[i]? = some (a, b) → (∀ r ∈ rs, r.id ≠ a) →
      (rs.foldl (fun m r => mapSet m r.id r) m)[i]? = some (a, b) := by
  induction rs with
  | nil =>
      intro m i a b hm _
      simpa using hm
  | cons r rs ih =>
      intro m i a b hm hall
      rw [List.foldl_cons]
      refine ih _ i a b ?_ ?_
      · exact mapSet_getElem_ne m r.id r i a b hm
          (Ne.symm (hall r (List.mem_cons_self r rs)))
      · intro x hx
        exact hall x (List.mem_cons_of_mem r hx)

/-- mapSet never shrinks the association list. -/
theorem mapSet_length (m : List (String × Row)) (k : String) (v : Row) :
    m.length ≤ (mapSet m k v).length := by
  unfold mapSet
  split <;> simp

/-- mapSet preserves the key stored at every pre-existing position. -/
theorem mapSet_key_getElem (m : List (String × Row)) (k : String) (v : Row)
    (i : Nat) (hi : i < m.length) :
    ((mapSet m k v)[i]?).map Prod.fst = (m[i]?).map Prod.fst := by
  have hp : m[i]? = some m[i] := List.getElem?_eq_getElem hi
  unfold mapSet
  split
  · rw [List.getElem?_map, hp]
    by_cases hk : (m[i]).1 = k <;> simp [hk]
  · rw [List.getElem?_append_left hi]

/-- Folding mapSet preserves the key stored at every pre-existing position. -/
theorem foldl_mapSet_key_getElem (rs : List Row) :
    ∀ (m : List (String × Row)) (i : Nat), i < m.length →
      ((rs.foldl (fun m r => mapSet m r.id r) m)[i]?).map Prod.fst
        = (m[i]?).map Prod.fst := by
  induction rs with
  | nil =>
      intro m i _
      rfl
  | cons r rs ih =>
      intro m i hi
      rw [List.foldl_cons,
        ih (mapSet m r.id r) i (lt_of_lt_of_le hi (mapSet_length m r.id r))]
      exact mapSet_key_getElem m r.id r i hi

/-- Folding mapSet over rows with pairwise fresh ids appends the pairs in
order. -/
theorem foldl_mapSet_of_nodup (rows : List Row) :
    ∀ acc : List (String × Row),
      (acc.map Prod.fst ++ rows.map Row.id).Nodup →
      rows.foldl (fun m r => mapSet m r.id r) acc
        = acc ++ rows.map (fun r => (r.id, r)) := by
  induction rows with
  | nil =>
      intro acc _
      simp
  | cons r rs ih =>
      intro acc hnd
      have hnotin : ¬ r.id ∈ acc.map Prod.fst := by
        rw [List.nodup_append] at hnd
        intro hc
        exact hnd.2.2 hc (by simp)
      have hstep : mapSet acc r.id r = acc ++ [(r.id, r)] := by
        unfold mapSet
        rw [if_neg]
        intro hc
        rw [List.any_eq_true] at hc
        obtain ⟨p, hp, hpk⟩ := hc
        exact hnotin (List.mem_map.mpr ⟨p, hp, by simpa using hpk⟩)
      rw [List.foldl_cons, hstep, ih (acc ++ [(r.id, r)]) ?_]
      · simp
      · simpa [List.append_assoc] using hnd

/-- Building the Map from rows with pairwise distinct ids pairs each row with
its id, in order. -/
theorem mapFromRows_eq (rows : List Row) (h : (rows.map Row.id).Nodup) :
    rows.foldl (fun m r => mapSet m r.id r) [] = rows.map (fun r => (r.id, r)) := by
  simpa using foldl_mapSet_of_nodup rows [] (by simpa using h)

/-- mapSet stores the inserted pair at some position. -/
theorem mapSet_exists_self (m : List (String × Row)) (k : String) (v : Row) :
    ∃ j : Nat, (mapSet m k v)[j]? = some (k, v) := by
  unfold mapSet
  split
  · next hany =>
      rw [List.any_eq_true] at hany
      obtain ⟨p, hp, hpk⟩ := hany
      have hpk : p.1 = k := by simpa using hpk
      obtain ⟨j, hj⟩ := List.mem_iff_getElem?.mp hp
      refine ⟨j, ?_⟩
      rw [List.getElem?_map, hj]
      simp [hpk]
  · exact ⟨m.length, List.getElem?_concat_length m (k, v)⟩

/-- After folding mapSet over a row list, every mentioned id is stored with
the last row carrying it. -/
theorem foldl_mapSet_last_write (rs : List Row) :
    ∀ (m : List (String × Row)) (a : String) (w : Row),
      (rs.filter (fun r => r.id = a)).getLast? = some w →
      ∃ j : Nat, (rs.foldl (fun m r => mapSet m r.id r) m)[j]? = some (a, w) := by
  induction rs using List.reverseRecOn with
  | nil =>
      intro m a w h
      simp at h
  | append_singleton l r ih =>
      intro m a w h
      rw [List.foldl_append, List.foldl_cons, List.foldl_nil]
      rw [List.filter_append] at h
      by_cases hid : r.id = a
      · have hf : List.filter (fun r => decide (r.id = a)) [r] = [r] := by
          simp [hid]
        rw [hf, List.getLast?_concat] at h
        have hw : r = w := by
          injection h
        subst hw
        rw [← hid]
        exact mapSet_exists_self _ r.id r
      · have hf : List.filter (fun r => decide (r.id = a)) [r] = [] := by
          simp [hid]
        rw [hf, List.append_nil] at h
        obtain ⟨j, hj⟩ := ih m a w h
        exact ⟨j, mapSet_getElem_ne _ r.id r j a w hj (fun hc => hid hc.symm)⟩

/-- C9: for an existing row list keyed by pairwise distinct ids, upsertRows
merges by id with last write winning - every existing row whose id no incoming
row mentions stays unchanged at its position, every mentioned id ends up
carrying the last incoming row bearing it, and rows with new ids are appended
after the existing block. -/
theorem upsertRows_merge_by_id (existing incoming : List Row)
    (hnd : (existing.map Row.id).Nodup) :
    (∀ (i : Nat) (e : Row), existing[i]? = some e → (∀ r ∈ incoming, r.id ≠ e.id) →
      (upsertRows existing incoming)[i]? = some e) ∧
    (∀ (a : String) (w : Row), (incoming.filter (fun r => r.id = a)).getLast? = some w →
      ∃ j : Nat, (upsertRows existing incoming)[j]? = some w) ∧
    (∀ r ∈ incoming, ¬ r.id ∈ existing.map Row.id →
      ∃ j : Nat, existing.length ≤ j ∧
        ((upsertRows existing incoming)[j]?).map Row.id = some r.id) := by
  have hm0 := mapFromRows_eq existing hnd
  refine ⟨?_, ?_, ?_⟩
  · intro i e he hall
    have hm0i : (existing.foldl (fun m r => mapSet m r.id r) [])[i]?
        = some (e.id, e) := by
      rw [hm0, List.getElem?_map, he]
      rfl
    have h1 := foldl_mapSet_getElem_ne incoming _ i e.id e hm0i hall
    unfold upsertRows
    rw [List.getElem?_map, h1]
    rfl
  · intro a w hlast
    obtain ⟨j, hj⟩ := foldl_mapSet_last_write incoming
      (existing.foldl (fun m r => mapSet m r.id r) []) a w hlast
    refine ⟨j, ?_⟩
    unfold upsertRows
    rw [List.getElem?_map, hj]
    rfl
  · intro r hr hnot
    have hne : incoming.filter (fun x => x.id = r.id) ≠ [] := by
      intro hc
      have : r ∈ incoming.filter (fun x => x.id = r.id) :=
        List.mem_filter.mpr ⟨hr, by simp⟩
      rw [hc] at this
      exact absurd this (List.not_mem_nil r)
    obtain ⟨w, hw⟩ := Option.isSome_iff_exists.mp
      (List.getLast?_isSome.mpr hne)
    have hwid : w.id = r.id := by
      have hwm : w ∈ incoming.filter (fun x => x.id = r.id) :=
        List.mem_of_mem_getLast? hw
      simpa using (List.mem_filter.mp hwm).2
    obtain ⟨j, hj⟩ := foldl_mapSet_last_write incoming
      (existing.foldl (fun m r => mapSet m r.id r) []) r.id w hw
    refine ⟨j, ?_, ?_⟩
    · by_contra hlt
      rw [not_le] at hlt
      have hlen : j < (existing.foldl (fun m r => mapSet m r.id r) []).length := by
        rw [hm0, List.length_map]
        exact hlt
      have hkey := foldl_mapSet_key_getElem incoming
        (existing.foldl (fun m r => mapSet m r.id r) []) j hlen
      rw [hj] at hkey
      have hex : (existing[j]?).map Row.id = some r.id := by
        rw [hm0, List.getElem?_map] at hkey
        have hje : existing[j]? = some existing[j] :=
          List.getElem?_eq_getElem hlt
        rw [hje] at hkey
        rw [hje]
        simpa using hkey.symm
      have : r.id ∈ existing.map Row.id := by
        have hje : existing[j]? = some existing[j] :=
          List.getElem?_eq_getElem hlt
        rw [hje] at hex
        refine List.mem_map.mpr ⟨existing[j], List.getElem_mem hlt, ?_⟩
        simpa using hex
      exact hnot this
    · unfold upsertRows
      rw [List.getElem?_map, hj]
      simpa using hwid

/-- Closed witness for the merge theorem: the claim scenario, upserting id 2
into a single row with id 1, keeps row 1 unchanged at position 0 and appends
id 2 after the existing block. -/
theorem upsertRows_merge_by_id_witness :
    (List.map Row.id [{ id := "1" }]).Nodup ∧
    (upsertRows [{ id := "1" }] [{ id := "2" }])[0]? = some { id := "1" } ∧
    (∃ j : Nat, 1 ≤ j ∧
      ((upsertRows [{ id := "1" }] [{ id := "2" }])[j]?).map Row.id
        = some "2") := by
  have h := upsertRows_merge_by_id [{ id := "1" }] [{ id := "2" }] (by decide)
  refine ⟨by decide, ?_, ?_⟩
  · exact h.1 0 { id := "1" } (by decide) (by decide)
  · exact h.2.2 { id := "2" } (by decide) (by decide)

/-- The upgraded columns list has one entry per header cell. -/
theorem tableColumns_length (t : LegacyTable) :
    (tableColumns t).length = (t.headerTexts.getD []).length := by
  simp [tableColumns]

/-- Element form of the upgraded columns list. -/
theorem tableColumns_getElem (t : LegacyTable) (i : Nat)
    (h : i < (t.headerTexts.getD []).length) :
    (tableColumns t)[i]? = some
      { key := "c" ++ toString (i + 1),
        title := (jsOrString ((t.headerTexts.getD []).getD i "")
          ("Col " ++ toString (i + 1))).trim,
        widthPx := none, align := none } := by
  unfold tableColumns
  rw [List.getElem?_map, List.getElem?_range h]
  rfl

/-- C8: upgrading a legacy table with H header cells and R body rows yields
exactly H columns and exactly R rows, column i titled with the trimmed header
text (Col N as the default for empty text), row j with id from the row
identifier attribute or synthesized as gid__rN, every cell value the trimmed
cell text keyed by the column key, and the result wrapped in a static data
source. -/
theorem gridSpecFromTable_shape (t : LegacyTable) (gid : String)
    (ti : Option String) :
    ∃ rows : List Row,
      (gridSpecFromTable t gid ti).data =
        { kind := "static",
          snapshot := some
            { columns := some (gridSpecFromTable t gid ti).columns,
              rows := some rows } } ∧
      (gridSpecFromTable t gid ti).columns.length
        = (t.headerTexts.getD []).length ∧
      rows.length = t.bodyCellRows.length ∧
      (∀ i, i < (t.headerTexts.getD []).length →
        (gridSpecFromTable t gid ti).columns[i]? = some
          { key := "c" ++ toString (i + 1),
            title := (jsOrString ((t.headerTexts.getD []).getD i "")
              ("Col " ++ toString (i + 1))).trim,
            widthPx := none, align := none }) ∧
      (∀ j, j < t.bodyCellRows.length →
        rows[j]? = some
          { id := jsOrString
              ((t.bodyCellRows.getD j trDefault).dataRowId.getD "")
              (gid ++ "__r" ++ toString (j + 1)),
            cells := (List.range (t.headerTexts.getD []).length).map (fun i =>
              ("c" ++ toString (i + 1),
                ((t.bodyCellRows.getD j trDefault).cellTexts.getD i "").trim)) }) := by
  refine ⟨tableRows t gid, rfl, tableColumns_length t, ?_, ?_, ?_⟩
  · simp [tableRows]
  · intro i hi
    exact tableColumns_getElem t i hi
  · intro j hj
    have hcells :
        (List.range (tableColumns t).length).map (fun i =>
          (((tableColumns t).getD i colDefault).key,
            ((t.bodyCellRows.getD j trDefault).cellTexts.getD i "").trim))
        = (List.range (t.headerTexts.getD []).length).map (fun i =>
            ("c" ++ toString (i + 1),
              ((t.bodyCellRows.getD j trDefault).cellTexts.getD i "").trim)) := by
      rw [tableColumns_length t]
      refine List.map_congr_left ?_
      intro i hi
      rw [List.mem_range] at hi
      rw [List.getD_eq_getElem?_getD, tableColumns_getElem t i hi]
      rfl
    unfold tableRows
    rw [List.getElem?_map, List.getElem?_range hj]
    simp only [Option.map_some']
    rw [hcells]

/-- Closed witness for the table upgrade theorem at a two-column, one-row
table with an empty second header and a missing row id. -/
theorem gridSpecFromTable_shape_witness :
    ∃ rows : List Row,
      (gridSpecFromTable
          { headerTexts := some ["  Name ", ""],
            bodyCellRows := [{ dataRowId := none, cellTexts := [" Ada ", "x"] }] }
          "g" none).data =
        { kind := "static",
          snapshot := some
            { columns := some (gridSpecFromTable
                { headerTexts := some ["  Name ", ""],
                  bodyCellRows := [{ dataRowId := none, cellTexts := [" Ada ", "x"] }] }
                "g" none).columns,
              rows := some rows } } ∧
      (gridSpecFromTable
          { headerTexts := some ["  Name ", ""],
            bodyCellRows := [{ dataRowId := none, cellTexts := [" Ada ", "x"] }] }
          "g" none).columns.length
        = ((some ["  Name ", ""] : Option (List String)).getD []).length ∧
      rows.length = 1 ∧
      (∀ i, i < ((some ["  Name ", ""] : Option (List String)).getD []).length →
        (gridSpecFromTable
            { headerTexts := some ["  Name ", ""],
              bodyCellRows := [{ dataRowId := none, cellTexts := [" Ada ", "x"] }] }
            "g" none).columns[i]? = some
          { key := "c" ++ toString (i + 1),
            title := (jsOrString (((some ["  Name ", ""] : Option (List String)).getD []).getD i "")
              ("Col " ++ toString (i + 1))).trim,
            widthPx := none, align := none }) ∧
      (∀ j, j < ([{ dataRowId := none, cellTexts := [" Ada ", "x"] }] : List TableRowHtml).length →
        rows[j]? = some
          { id := jsOrString
              ((([{ dataRowId := none, cellTexts := [" Ada ", "x"] }] : List TableRowHtml).getD j trDefault).dataRowId.getD "")
              ("g" ++ "__r" ++ toString (j + 1)),
            cells := (List.range ((some ["  Name ", ""] : Option (List String)).getD []).length).map (fun i =>
              ("c" ++ toString (i + 1),
                ((([{ dataRowId := none, cellTexts := [" Ada ", "x"] }] : List TableRowHtml).getD j trDefault).cellTexts.getD i "").trim)) }) :=
  gridSpecFromTable_shape
    { headerTexts := some ["  Name ", ""],
      bodyCellRows := [{ dataRowId := none, cellTexts := [" Ada ", "x"] }] }
    "g" none

/-- Closed witness for the stale-resume theorem with a cycle 0 continuation
against a cycle 1 state. -/
theorem resume_ignores_cycle_witness :
    (resumePending { cycle := 1 } []
        { cycle := 0, resume := FetchResume.failure "aborted" }).model.status
      = Status.error ∧
    (resumePending { cycle := 1 } []
        { cycle := 0, resume := FetchResume.failure "aborted" }).model.error
      = "Fetch failed: " ++ "aborted" :=
  resume_ignores_cycle { cycle := 1 } [] 0 "aborted" (by decide)

end NG
